import Mathlib

/-!
Shallow embedding of the workflow-orchestration core of the
`ai-agent-ecosystem-builder` repository, together with theorems settling the
frozen claims about its specification.

The embedding translates, from the Python source:
  * `src/agents/orchestrator_agent.py` — `OrchestratorAgent` (`execute`,
    `_execute_environment_setup`, `_execute_definition_phase`,
    `_execute_development_phase`, `_execute_delivery_phase`,
    `pause_workflow`, `resume_workflow`, `_handle_pause_resume`,
    `handle_model_unavailable`, `register_agent`);
  * `src/agents/validator_agent.py` — `ValidatorAgent`
    (`_perform_final_validation`, `_validate_criterion` and the six
    per-criterion validators);
  * `src/agents/deployment_agent.py` — `DeploymentAgent.execute` (dispatch).

Modelling conventions:
  * Python dicts keyed by strings become association lists
    (`List (String × α)`); assignment `d[k] = v` keeps insertion order and
    overwrites in place, mirrored by `dictInsert`.
  * Dynamically typed payload values are modelled by `PyVal`, with Python
    truthiness given by `PyVal.truthy` (only the values the modelled code
    can actually distinguish are represented: `None`, booleans, strings).
  * An agent object is modelled by its `execute` method, a function from a
    context to a structured outcome.  The orchestrator's own control flow
    reads only the `user_input` context key, so the modelled context carries
    exactly that; the remaining keys influence only the opaque step
    functions, which are universally quantified.
  * `create_response` also attaches `agent_id` and `timestamp` metadata;
    these never influence control flow and are omitted.
-/

/-- A dynamically typed Python value, restricted to the shapes the modelled
control flow can distinguish. -/
inductive PyVal where
  | none
  | bool (b : Bool)
  | str (s : String)
deriving DecidableEq, Repr

/-- Python truthiness of a `PyVal` (`None` and `""` are falsy). -/
def PyVal.truthy : PyVal → Bool
  | .none => false
  | .bool b => b
  | .str s => !s.isEmpty

/-- Association-list lookup, modelling `d[k]` / `d.get(k)` on a Python dict
keyed by strings. -/
def dictGet {α : Type} (m : List (String × α)) (k : String) : Option α :=
  match m with
  | [] => Option.none
  | (k₁, v) :: rest => if k₁ = k then some v else dictGet rest k

/-- Association-list update, modelling `d[k] = v` on a Python dict: an
existing key is overwritten in place, a new key is appended. -/
def dictInsert {α : Type} (m : List (String × α)) (k : String) (v : α) :
    List (String × α) :=
  match m with
  | [] => [(k, v)]
  | (k₁, v₁) :: rest =>
      if k₁ = k then (k, v) :: rest else (k₁, v₁) :: dictInsert rest k v

/-- The standardized response format produced by `BaseAgent.create_response`
(`success`, `message`, `data`; the `agent_id`/`timestamp` metadata is
omitted, see the module docstring). -/
structure StepOutcome where
  success : Bool
  message : String
  data : List (String × PyVal)
deriving Repr

/-- The workflow context restricted to the single key the orchestrator's own
control flow reads (`context.get("user_input")`). -/
structure Ctx where
  user_input : Option String
deriving DecidableEq, Repr

/-- An agent as seen by the orchestrator: its `execute` method. -/
def Step : Type := Ctx → StepOutcome

/-- The orchestrator state: `self.agents`, `self.workflow_state`,
`self.paused`, `self.pause_reason` (from `OrchestratorAgent.__init__`;
`current_step` and `workflow_steps` are never read by any control flow and
are omitted). -/
structure OrchState where
  agents : List (String × Step)
  workflow_state : String
  paused : Bool
  pause_reason : Option String

/-- The orchestrator state right after `OrchestratorAgent.__init__`. -/
def orchInit : OrchState :=
  { agents := [], workflow_state := "initializing", paused := false,
    pause_reason := Option.none }

/-- `create_response(success, message, data)` without agent metadata. -/
def mkResp (success : Bool) (message : String)
    (data : List (String × PyVal)) : StepOutcome :=
  { success := success, message := message, data := data }

/-- `OrchestratorAgent.register_agent`: unconditionally stores the agent
under its id (`self.agents[agent.agent_id] = agent`). -/
def register_agent (st : OrchState) (agent_id : String) (step : Step) :
    OrchState :=
  { st with agents := dictInsert st.agents agent_id step }

/-- `OrchestratorAgent.pause_workflow`. -/
def pause_workflow (st : OrchState) (reason : String) : OrchState :=
  { st with paused := true, pause_reason := some reason }

/-- `OrchestratorAgent.resume_workflow`. -/
def resume_workflow (st : OrchState) : OrchState :=
  { st with paused := false, pause_reason := Option.none }

/-- String form of `self.pause_reason` inside an f-string
(`None` prints as `"None"`). -/
def reasonStr : Option String → String
  | Option.none => "None"
  | some s => s

/-- `PyVal` form of `self.pause_reason` stored into a response payload. -/
def reasonVal : Option String → PyVal
  | Option.none => PyVal.none
  | some s => PyVal.str s

/-- `OrchestratorAgent._handle_pause_resume`: resume on the exact input
`"Try again"`, otherwise reject, echoing the stored pause reason. -/
def handle_pause_resume (st : OrchState) (ctx : Ctx) :
    OrchState × StepOutcome :=
  if ctx.user_input = some "Try again" then
    (resume_workflow st,
      mkResp true "Workflow resumed. Continuing from last step."
        [("resumed", PyVal.bool true)])
  else
    (st,
      mkResp false
        ("⏸️ Workflow paused: " ++ reasonStr st.pause_reason ++
          ". Type 'Try again' to resume.")
        [("paused", PyVal.bool true), ("reason", reasonVal st.pause_reason)])

/-- `OrchestratorAgent.handle_model_unavailable`. -/
def handle_model_unavailable (st : OrchState) (model : String) :
    OrchState × StepOutcome :=
  (pause_workflow st ("Model " ++ model ++ " unavailable"),
    mkResp false
      ("⏸️ Model " ++ model ++
        " is unavailable.\nNo fallback will be used to maintain cost control.\nType 'Try again' once you want to resume.")
      [("model_unavailable", PyVal.bool true), ("model", PyVal.str model)])

/-- `OrchestratorAgent._execute_environment_setup`.  The source checks the
key `"env_agent"` but then indexes `self.agents["env_001"]`; a missing
`"env_001"` raises a `KeyError` that the `execute` wrapper converts to a
failure response. -/
def execEnvSetup (st : OrchState) (ctx : Ctx) : OrchState × StepOutcome :=
  match dictGet st.agents "env_agent" with
  | Option.none => (st, mkResp false "Environment agent not registered" [])
  | some _ =>
    match dictGet st.agents "env_001" with
    | Option.none =>
        (st, mkResp false "Workflow execution failed: 'env_001'" [])
    | some env_agent =>
        let result := env_agent ctx
        if result.success then
          ({ st with workflow_state := "definition" },
            mkResp true
              "⚙️ Environment setup completed. Moving to definition phase."
              [("next_phase", PyVal.str "definition")])
        else (st, result)

/-- `OrchestratorAgent._execute_definition_phase`: advance to development
only when the coordinator outcome succeeds and its data payload carries a
truthy `"project_defined"` flag. -/
def execDefPhase (st : OrchState) (ctx : Ctx) : OrchState × StepOutcome :=
  match dictGet st.agents "coord_001" with
  | Option.none => (st, mkResp false "Coordinator agent not registered" [])
  | some coordinator =>
      let result := coordinator ctx
      if result.success &&
          PyVal.truthy
            ((dictGet result.data "project_defined").getD (PyVal.bool false)) then
        ({ st with workflow_state := "development" },
          mkResp true
            "🧭 Project definition completed. Starting development phase."
            [("next_phase", PyVal.str "development")])
      else (st, result)

/-- The fixed `dev_steps` list of `_execute_development_phase`:
`(agent_id, agent_name, description)`. -/
def dev_steps : List (String × String × String) :=
  [("arch_001", "Architect Agent", "Designing system architecture"),
   ("core_001", "Core Logic Agent", "Writing Python code"),
   ("backup_001", "Backup Agent", "Creating backups"),
   ("standards_001", "Standards Agent", "Enforcing coding standards"),
   ("test_001", "Testing Agent", "Running tests and validation"),
   ("doc_001", "Documentation Agent", "Updating documentation"),
   ("ethics_001", "Ethics Agent", "Security and ethics review"),
   ("valid_001", "Validator Agent", "Final validation")]

/-- The agent ids of `dev_steps`, in order. -/
def devIds : List String := dev_steps.map (fun s => s.1)

/-- The loop body of `_execute_development_phase`: walk the step list in
order, skipping unregistered agent ids (`continue`), invoking each
registered agent once, and stopping at the first failed outcome.  Returns
the ordered list of invoked agent ids together with `none` when every
invoked step succeeded, or `some (agent_name, message)` for the first
failure. -/
def devLoop (agents : List (String × Step)) (ctx : Ctx) :
    List (String × String × String) → List String × Option (String × String)
  | [] => ([], Option.none)
  | (agent_id, agent_name, _) :: rest =>
      match dictGet agents agent_id with
      | Option.none => devLoop agents ctx rest
      | some step =>
          let result := step ctx
          if result.success then
            let t := devLoop agents ctx rest
            (agent_id :: t.1, t.2)
          else ([agent_id], some (agent_name, result.message))

/-- `OrchestratorAgent._execute_development_phase`. -/
def execDevPhase (st : OrchState) (ctx : Ctx) : OrchState × StepOutcome :=
  match devLoop st.agents ctx dev_steps with
  | (_, some (agent_name, msg)) =>
      (st,
        mkResp false
          ("Development step failed: " ++ agent_name ++ " - " ++ msg) [])
  | (_, Option.none) =>
      ({ st with workflow_state := "delivery" },
        mkResp true
          "🧠 Development phase completed. Moving to delivery phase."
          [("next_phase", PyVal.str "delivery")])

/-- `OrchestratorAgent._execute_delivery_phase`. -/
def execDeliveryPhase (st : OrchState) (ctx : Ctx) : OrchState × StepOutcome :=
  match dictGet st.agents "repo_001" with
  | Option.none => (st, mkResp false "Repository agent not registered" [])
  | some repo_agent =>
      let result := repo_agent ctx
      if result.success then
        ({ st with workflow_state := "completed" },
          mkResp true "🚀 Project delivery completed successfully!"
            [("project_completed", PyVal.bool true)])
      else (st, result)

/-- `OrchestratorAgent.execute`: pause handling first, then dispatch on
`self.workflow_state`. -/
def orchExecute (st : OrchState) (ctx : Ctx) : OrchState × StepOutcome :=
  if st.paused then handle_pause_resume st ctx
  else if st.workflow_state = "initializing" then execEnvSetup st ctx
  else if st.workflow_state = "definition" then execDefPhase st ctx
  else if st.workflow_state = "development" then execDevPhase st ctx
  else if st.workflow_state = "delivery" then execDeliveryPhase st ctx
  else
    (st, mkResp false ("Unknown workflow state: " ++ st.workflow_state) [])

/-- The successor of a phase in the fixed phase order
`initializing → definition → development → delivery → completed`. -/
def phaseSucc : String → Option String
  | "initializing" => some "definition"
  | "definition" => some "development"
  | "development" => some "delivery"
  | "delivery" => some "completed"
  | _ => Option.none

/-! ## Validator agent (`src/agents/validator_agent.py`) -/

/-- Boolean prefix test on character lists (helper for the Python `in`
substring operator). -/
def isPrefixB : List Char → List Char → Bool
  | [], _ => true
  | _ :: _, [] => false
  | a :: as, b :: bs => a == b && isPrefixB as bs

/-- Boolean substring test on character lists: does `pat` occur contiguously
inside the second list?  Mirrors Python's `pat in s`. -/
def infixB (pat : List Char) : List Char → Bool
  | [] => isPrefixB pat []
  | b :: bs => isPrefixB pat (b :: bs) || infixB pat bs

/-- Python `keyword in issue.lower()` (per-character lowering; the keywords
and issue texts involved are ASCII, where `Char.toLower` agrees with
Python's `str.lower`). -/
def kwInLower (keyword issue : String) : Bool :=
  infixB keyword.toList (issue.toList.map Char.toLower)

/-- The fixed critical-failure keyword list of
`ValidatorAgent._perform_final_validation`. -/
def criticalKeywords : List String :=
  ["syntax error", "compilation failed", "cannot run",
   "broken", "corrupted", "security vulnerability"]

/-- An issue string is critical when some critical keyword occurs in its
lower-cased text (`any(keyword in issue.lower() for keyword in ...)`). -/
def isCritical (issue : String) : Bool :=
  criticalKeywords.any (fun keyword => kwInLower keyword issue)

/-- One entry of the `standards_results` mapping: tool name to a result dict
from which the validator reads `status` and `message` (absent keys are
`Option.none`). -/
structure ToolResult where
  status : Option String
  message : Option String
deriving DecidableEq, Repr

/-- The `documentation_results` dict as read by the validator: Python
truthiness of `readme_created` and `api_docs_created`. -/
structure DocResults where
  readme_created : Bool
  api_docs_created : Bool
deriving DecidableEq, Repr

/-- The `test_results` dict as read by the validator: truthiness of
`syntax_valid`, and `unit_tests.get("return_code")` (absent `unit_tests`
or `return_code` is `Option.none`, which compares unequal to `0`). -/
structure TestResults where
  syntax_valid : Bool
  unit_tests_return_code : Option Int
deriving DecidableEq, Repr

/-- The `validation_results` mapping consumed by
`ValidatorAgent._perform_final_validation`.  Sub-dicts that the code probes
only for truthiness and then reads fixed keys from are modelled as
`Option`-wrapped structures (`Option.none` = absent or empty, i.e. falsy);
the mappings iterated with `.items()` are association lists (empty list =
falsy).  `security_results`/`ethics_results` map file paths to the
truthiness of `overall_safe`. -/
structure ValidationResults where
  standards_results : List (String × ToolResult)
  documentation_results : Option DocResults
  test_results : Option TestResults
  security_results : List (String × Bool)
  ethics_results : List (String × Bool)
deriving DecidableEq, Repr

/-- Result of validating one criterion
(`{passed, issues, recommendations}`). -/
structure CritResult where
  passed : Bool
  issues : List String
  recommendations : List String
deriving DecidableEq, Repr

/-- `ValidatorAgent._validate_code_quality`. -/
def validate_code_quality (vr : ValidationResults) : CritResult :=
  if vr.standards_results.isEmpty then
    { passed := true, issues := [],
      recommendations := ["Consider running code quality tools"] }
  else
    let issues := vr.standards_results.filterMap (fun tr =>
      if tr.2.status ≠ some "clean" then
        some (tr.1 ++ ": " ++ tr.2.message.getD "Issues found")
      else Option.none)
    { passed := issues.isEmpty, issues := issues,
      recommendations :=
        if issues.isEmpty then [] else ["Run code quality tools and fix issues"] }

/-- `ValidatorAgent._validate_documentation`. -/
def validate_documentation (vr : ValidationResults) : CritResult :=
  match vr.documentation_results with
  | Option.none =>
      { passed := true, issues := [],
        recommendations := ["Consider adding more documentation"] }
  | some d =>
      let issues :=
        (if !d.readme_created then ["README.md not created"] else []) ++
        (if !d.api_docs_created then ["API documentation not created"] else [])
      { passed := issues.isEmpty, issues := issues,
        recommendations :=
          if issues.isEmpty then [] else ["Create comprehensive documentation"] }

/-- `ValidatorAgent._validate_testing`. -/
def validate_testing (vr : ValidationResults) : CritResult :=
  match vr.test_results with
  | Option.none =>
      { passed := true, issues := [],
        recommendations := ["Consider adding more comprehensive tests"] }
  | some t =>
      let issues :=
        (if !t.syntax_valid then ["Syntax validation failed"] else []) ++
        (if t.unit_tests_return_code ≠ some 0 then ["Unit tests failed"] else [])
      { passed := issues.isEmpty, issues := issues,
        recommendations := if issues.isEmpty then [] else ["Fix failing tests"] }

/-- `ValidatorAgent._validate_security`. -/
def validate_security (vr : ValidationResults) : CritResult :=
  if vr.security_results.isEmpty then
    { passed := true, issues := [],
      recommendations := ["Consider adding security scanning"] }
  else
    let issues := vr.security_results.filterMap (fun fr =>
      if !fr.2 then some ("Security issues in " ++ fr.1) else Option.none)
    { passed := issues.isEmpty, issues := issues,
      recommendations :=
        if issues.isEmpty then [] else ["Address security issues"] }

/-- `ValidatorAgent._validate_ethics`. -/
def validate_ethics (vr : ValidationResults) : CritResult :=
  if vr.ethics_results.isEmpty then
    { passed := true, issues := [],
      recommendations := ["Consider adding ethics review"] }
  else
    let issues := vr.ethics_results.filterMap (fun fr =>
      if !fr.2 then some ("Ethical issues in " ++ fr.1) else Option.none)
    { passed := issues.isEmpty, issues := issues,
      recommendations :=
        if issues.isEmpty then [] else ["Address ethical issues"] }

/-- `ValidatorAgent._validate_functionality` (always passes, no issues and
no recommendations). -/
def validate_functionality (_vr : ValidationResults) : CritResult :=
  { passed := true, issues := [], recommendations := [] }

/-- The fixed criterion list `ValidatorAgent.validation_criteria`. -/
def validation_criteria : List String :=
  ["code_quality", "documentation", "testing", "security", "ethics",
   "functionality"]

/-- `ValidatorAgent._validate_criterion` (the unknown-criterion branch has
no `recommendations` key, read back as the empty list). -/
def validate_criterion (criterion : String) (vr : ValidationResults) :
    CritResult :=
  if criterion = "code_quality" then validate_code_quality vr
  else if criterion = "documentation" then validate_documentation vr
  else if criterion = "testing" then validate_testing vr
  else if criterion = "security" then validate_security vr
  else if criterion = "ethics" then validate_ethics vr
  else if criterion = "functionality" then validate_functionality vr
  else
    { passed := false, issues := ["Unknown criterion: " ++ criterion],
      recommendations := [] }

/-- The validation report built by `_perform_final_validation`. -/
structure Validation where
  approved : Bool
  criteria : List (String × CritResult)
  issues : List String
  recommendations : List String
deriving DecidableEq, Repr

/-- One iteration of the criterion loop in `_perform_final_validation`. -/
def aggStep (vr : ValidationResults) (v : Validation) (criterion : String) :
    Validation :=
  let result := validate_criterion criterion vr
  let v := { v with criteria := v.criteria ++ [(criterion, result)] }
  if !result.passed && !result.issues.isEmpty then
    let critical_issues := result.issues.filter isCritical
    if !critical_issues.isEmpty then
      { v with approved := false,
               issues := v.issues ++ critical_issues,
               recommendations := v.recommendations ++ result.recommendations }
    else
      { v with recommendations := v.recommendations ++ result.recommendations }
  else v

/-- `ValidatorAgent._perform_final_validation`. -/
def perform_final_validation (vr : ValidationResults) : Validation :=
  validation_criteria.foldl (aggStep vr)
    { approved := true, criteria := [], issues := [], recommendations := [] }

/-- The `validation_results` value for an empty context
(`context.get("validation_results", {})` yields `{}`: every sub-mapping
absent). -/
def emptyVR : ValidationResults :=
  { standards_results := [], documentation_results := Option.none,
    test_results := Option.none, security_results := [], ethics_results := [] }

/-! ## Deployment agent dispatch (`src/agents/deployment_agent.py`) -/

/-- The result dict of one concrete deployment routine
(`_deploy_to_github` / `_deploy_as_executable` / `_deploy_source_only`),
restricted to the keys `DeploymentAgent.execute` reads: `success` and, on
failure, `message`.  (On failure every routine supplies a `message`.) -/
structure DeployResult where
  success : Bool
  message : String
deriving DecidableEq, Repr

/-- The three deployment routines as opaque collaborators: the outcome each
would produce on the current context.  `execute` only dispatches on the
choice, so their internals (file-system and git side effects) are
irrelevant to the claims and are represented by their results. -/
structure DeployRoutines where
  github : DeployResult
  executable : DeployResult
  source_only : DeployResult
deriving DecidableEq, Repr

/-- `DeploymentAgent.execute`, as a function of the three routine results
and the optional `deployment_choice` context key
(`context.get("deployment_choice", "source_only")`).  Returns the
`(success, message)` part of the response. -/
def deployExecute (r : DeployRoutines) (deployment_choice : Option String) :
    DeployResult :=
  let choice := deployment_choice.getD "source_only"
  if choice = "github" then deployFinish r.github
  else if choice = "executable" then deployFinish r.executable
  else if choice = "source_only" then deployFinish r.source_only
  else { success := false, message := "Invalid deployment option" }
where
  /-- The shared post-processing of a routine result in
  `DeploymentAgent.execute`. -/
  deployFinish (res : DeployResult) : DeployResult :=
    if res.success then
      { success := true, message := "SUCCESS: Deployment completed" }
    else
      { success := false, message := "Deployment failed: " ++ res.message }

/-! ## Helper lemmas and concrete fixtures -/

/-- The empty context (`user_input` absent). -/
def ctx0 : Ctx := { user_input := Option.none }

theorem dictGet_dictInsert_self {α : Type} (m : List (String × α))
    (k : String) (v : α) : dictGet (dictInsert m k v) k = some v := by
  induction m with
  | nil => simp [dictInsert, dictGet]
  | cons p rest ih =>
      obtain ⟨k₁, v₁⟩ := p
      by_cases hk : k₁ = k
      · simp [dictInsert, dictGet, hk]
      · simp [dictInsert, dictGet, hk, ih]

theorem dictGet_dictInsert_ne {α : Type} (m : List (String × α))
    (k k₂ : String) (v : α) (h : k₂ ≠ k) :
    dictGet (dictInsert m k v) k₂ = dictGet m k₂ := by
  induction m with
  | nil => simp [dictInsert, dictGet, Ne.symm h]
  | cons p rest ih =>
      obtain ⟨k₁, v₁⟩ := p
      by_cases hk : k₁ = k
      · subst hk
        simp [dictInsert, dictGet, Ne.symm h]
      · simp [dictInsert, dictGet, hk, ih]

theorem handle_pause_resume_fst_ws (st : OrchState) (ctx : Ctx) :
    (handle_pause_resume st ctx).1.workflow_state = st.workflow_state := by
  unfold handle_pause_resume resume_workflow
  split <;> rfl

theorem execEnvSetup_fst_ws (st : OrchState) (ctx : Ctx) :
    (execEnvSetup st ctx).1.workflow_state = st.workflow_state ∨
      (execEnvSetup st ctx).1.workflow_state = "definition" := by
  unfold execEnvSetup
  cases dictGet st.agents "env_agent" with
  | none => exact Or.inl rfl
  | some _ =>
      cases dictGet st.agents "env_001" with
      | none => exact Or.inl rfl
      | some env_agent =>
          dsimp only
          split
          · exact Or.inr rfl
          · exact Or.inl rfl

theorem execDefPhase_fst_ws (st : OrchState) (ctx : Ctx) :
    (execDefPhase st ctx).1.workflow_state = st.workflow_state ∨
      (execDefPhase st ctx).1.workflow_state = "development" := by
  unfold execDefPhase
  cases dictGet st.agents "coord_001" with
  | none => exact Or.inl rfl
  | some coordinator =>
      dsimp only
      split
      · exact Or.inr rfl
      · exact Or.inl rfl

theorem execDevPhase_fst_ws (st : OrchState) (ctx : Ctx) :
    (execDevPhase st ctx).1.workflow_state = st.workflow_state ∨
      (execDevPhase st ctx).1.workflow_state = "delivery" := by
  unfold execDevPhase
  split
  · exact Or.inl rfl
  · exact Or.inr rfl

theorem execDeliveryPhase_fst_ws (st : OrchState) (ctx : Ctx) :
    (execDeliveryPhase st ctx).1.workflow_state = st.workflow_state ∨
      (execDeliveryPhase st ctx).1.workflow_state = "completed" := by
  unfold execDeliveryPhase
  cases dictGet st.agents "repo_001" with
  | none => exact Or.inl rfl
  | some repo_agent =>
      dsimp only
      split
      · exact Or.inr rfl
      · exact Or.inl rfl

theorem execEnvSetup_fst_paused (st : OrchState) (ctx : Ctx) :
    (execEnvSetup st ctx).1.paused = st.paused := by
  unfold execEnvSetup
  cases dictGet st.agents "env_agent" with
  | none => rfl
  | some _ =>
      cases dictGet st.agents "env_001" with
      | none => rfl
      | some env_agent => dsimp only; split <;> rfl

theorem execDefPhase_fst_paused (st : OrchState) (ctx : Ctx) :
    (execDefPhase st ctx).1.paused = st.paused := by
  unfold execDefPhase
  cases dictGet st.agents "coord_001" with
  | none => rfl
  | some coordinator => dsimp only; split <;> rfl

theorem execDevPhase_fst_paused (st : OrchState) (ctx : Ctx) :
    (execDevPhase st ctx).1.paused = st.paused := by
  unfold execDevPhase
  split <;> rfl

theorem execDeliveryPhase_fst_paused (st : OrchState) (ctx : Ctx) :
    (execDeliveryPhase st ctx).1.paused = st.paused := by
  unfold execDeliveryPhase
  cases dictGet st.agents "repo_001" with
  | none => rfl
  | some repo_agent => dsimp only; split <;> rfl

/-- A phase run (any non-paused `execute` dispatch) never sets the paused
flag: pausing has no trigger inside the phase handlers. -/
theorem orchExecute_preserves_paused (st : OrchState) (ctx : Ctx)
    (hp : st.paused = false) : (orchExecute st ctx).1.paused = false := by
  unfold orchExecute
  rw [hp]
  simp only [Bool.false_eq_true, if_false]
  split_ifs
  · rw [execEnvSetup_fst_paused]; exact hp
  · rw [execDefPhase_fst_paused]; exact hp
  · rw [execDevPhase_fst_paused]; exact hp
  · rw [execDeliveryPhase_fst_paused]; exact hp
  · exact hp

/-! ## Claim C8 — step registration -/

/-- Concrete agent used in registration fixtures. -/
def stepFirst : Step := fun _ => mkResp true "first" []

/-- A second concrete agent, distinguishable from `stepFirst` by its
message. -/
def stepSecond : Step := fun _ => mkResp true "second" []

/-- C8 counterexample: registering a second agent under an id that is
already occupied does not fail — there is no `DuplicateStepError`, no
sealed flag and no `RegistryClosedError` in `register_agent`; the second
registration silently overwrites the first. -/
theorem C8_counterexample :
    ((register_agent (register_agent orchInit "arch_001" stepFirst)
        "arch_001" stepSecond).agents.length = 1) ∧
    ((dictGet (register_agent (register_agent orchInit "arch_001" stepFirst)
        "arch_001" stepSecond).agents "arch_001").map
          (fun s => (s ctx0).message) = some "second") := by
  exact ⟨rfl, rfl⟩

/-- C8 (amended): `register_agent` never fails; it unconditionally stores
the agent under its id, overwriting any existing entry for that id and
leaving every other entry and the rest of the orchestrator state
unchanged.  No sealing mechanism exists, so this holds at any time,
whatever the workflow state. -/
theorem C8_register_overwrites (st : OrchState) (agent_id : String)
    (step : Step) (k : String) :
    dictGet (register_agent st agent_id step).agents agent_id = some step ∧
    (k ≠ agent_id →
      dictGet (register_agent st agent_id step).agents k =
        dictGet st.agents k) ∧
    (register_agent st agent_id step).workflow_state = st.workflow_state ∧
    (register_agent st agent_id step).paused = st.paused ∧
    (register_agent st agent_id step).pause_reason = st.pause_reason := by
  refine ⟨?_, ?_, rfl, rfl, rfl⟩
  · exact dictGet_dictInsert_self st.agents agent_id step
  · intro hk
    exact dictGet_dictInsert_ne st.agents agent_id k step hk

/-- Witness for `C8_register_overwrites` at a concrete registry and ids. -/
theorem C8_register_overwrites_witness :
    dictGet (register_agent orchInit "arch_001" stepFirst).agents
        "arch_001" = some stepFirst ∧
    dictGet (register_agent orchInit "arch_001" stepFirst).agents
        "core_001" = dictGet orchInit.agents "core_001" :=
  ⟨(C8_register_overwrites orchInit "arch_001" stepFirst "core_001").1,
   (C8_register_overwrites orchInit "arch_001" stepFirst "core_001").2.1
     (by decide)⟩

/-! ## Claim C2 — pause/resume input handling -/

/-- A concrete paused orchestrator state. -/
def pausedSt : OrchState :=
  { agents := [], workflow_state := "development", paused := true,
    pause_reason := some "Model gpt-4o-mini unavailable" }

/-- C2 counterexample: while paused, the input "try again" is equal to the
resume phrase "Try again" under case-insensitive comparison, yet it does
NOT clear the pause state — the source compares with case-sensitive `==`,
so the claimed case-insensitive acceptance fails. -/
theorem C2_counterexample :
    "try again".toList.map Char.toLower =
      "Try again".toList.map Char.toLower ∧
    (orchExecute pausedSt { user_input := some "try again" }).1.paused =
      true ∧
    (orchExecute pausedSt { user_input := some "try again" }).2.success =
      false := by
  refine ⟨by decide, rfl, rfl⟩

/-- C2 (amended): while paused, exactly the literal input "Try again"
(case-sensitively) clears the pause state; every other input leaves the
state unchanged and is rejected with `success = false`, the stored pause
reason echoed verbatim both in the message and under the `"reason"` key of
the response data. -/
theorem C2_pause_resume (st : OrchState) (ctx : Ctx) (r : String)
    (hp : st.paused = true) (hr : st.pause_reason = some r) :
    (ctx.user_input = some "Try again" →
      (orchExecute st ctx).1.paused = false ∧
      (orchExecute st ctx).2.success = true) ∧
    (ctx.user_input ≠ some "Try again" →
      (orchExecute st ctx).1 = st ∧
      (orchExecute st ctx).2.success = false ∧
      (orchExecute st ctx).2.message =
        "⏸️ Workflow paused: " ++ r ++ ". Type 'Try again' to resume." ∧
      dictGet (orchExecute st ctx).2.data "reason" = some (PyVal.str r)) := by
  constructor
  · intro hin
    unfold orchExecute
    rw [hp]
    simp only [if_true]
    unfold handle_pause_resume resume_workflow
    rw [if_pos hin]
    exact ⟨rfl, rfl⟩
  · intro hin
    unfold orchExecute
    rw [hp]
    simp only [if_true]
    unfold handle_pause_resume
    rw [if_neg hin, hr]
    refine ⟨rfl, rfl, rfl, ?_⟩
    simp [dictGet, reasonVal]

/-- Witness for `C2_pause_resume`: the exact phrase resumes, a different
input is rejected with the stored reason echoed. -/
theorem C2_pause_resume_witness :
    ((orchExecute pausedSt { user_input := some "Try again" }).1.paused =
        false ∧
      (orchExecute pausedSt { user_input := some "Try again" }).2.success =
        true) ∧
    ((orchExecute pausedSt { user_input := some "status?" }).1 = pausedSt ∧
      (orchExecute pausedSt { user_input := some "status?" }).2.success =
        false ∧
      (orchExecute pausedSt { user_input := some "status?" }).2.message =
        "⏸️ Workflow paused: " ++ "Model gpt-4o-mini unavailable" ++
          ". Type 'Try again' to resume." ∧
      dictGet (orchExecute pausedSt
          { user_input := some "status?" }).2.data "reason" =
        some (PyVal.str "Model gpt-4o-mini unavailable")) :=
  ⟨(C2_pause_resume pausedSt { user_input := some "Try again" }
      "Model gpt-4o-mini unavailable" rfl rfl).1 rfl,
   (C2_pause_resume pausedSt { user_input := some "status?" }
      "Model gpt-4o-mini unavailable" rfl rfl).2 (by decide)⟩

/-! ## Claim C3 — recoverable failures and pausing -/

/-- A development step failing because the external model is unavailable
(the failure class the spec calls recoverable). -/
def unavailStep : Step := fun _ =>
  mkResp false
    "Architecture design failed: Model gpt-4o-mini unavailable. Please try again later."
    []

/-- A development-phase state whose first step reports a recoverable
dependency failure. -/
def devStUnavail : OrchState :=
  { agents := [("arch_001", unavailStep)], workflow_state := "development",
    paused := false, pause_reason := Option.none }

/-- C3 counterexample: when a development step fails because an external
model is unavailable, the orchestrator does NOT set the paused flag; it
surfaces a terminal failure response (pause state stays clear, phase
unchanged), contradicting the claim that recoverable failures pause the
run.  No code path classifies a step failure as recoverable. -/
theorem C3_counterexample :
    (orchExecute devStUnavail ctx0).1.paused = false ∧
    (orchExecute devStUnavail ctx0).1.pause_reason = Option.none ∧
    (orchExecute devStUnavail ctx0).2.success = false ∧
    (orchExecute devStUnavail ctx0).1.workflow_state = "development" := by
  exact ⟨rfl, rfl, rfl, rfl⟩

/-- C3 (amended): pausing on an unavailable external model happens only
through the separate `handle_model_unavailable` entry point (never invoked
by the phase runner itself), which sets the paused flag with the reason
`"Model {model} unavailable"`, returns `success = false` and leaves the
current phase unchanged; a step failure inside a phase run, whatever its
message, never sets the paused flag. -/
theorem C3_pause_only_via_handler (st : OrchState) (model : String)
    (ctx : Ctx) (hp : st.paused = false) :
    (handle_model_unavailable st model).1.paused = true ∧
    (handle_model_unavailable st model).1.pause_reason =
      some ("Model " ++ model ++ " unavailable") ∧
    (handle_model_unavailable st model).1.workflow_state =
      st.workflow_state ∧
    (handle_model_unavailable st model).2.success = false ∧
    (orchExecute st ctx).1.paused = false := by
  exact ⟨rfl, rfl, rfl, rfl, orchExecute_preserves_paused st ctx hp⟩

/-- Witness for `C3_pause_only_via_handler` at a concrete state and model
name. -/
theorem C3_pause_only_via_handler_witness :
    (handle_model_unavailable devStUnavail "gpt-4o-mini").1.paused = true ∧
    (handle_model_unavailable devStUnavail "gpt-4o-mini").1.pause_reason =
      some ("Model " ++ "gpt-4o-mini" ++ " unavailable") ∧
    (handle_model_unavailable devStUnavail
        "gpt-4o-mini").1.workflow_state = "development" ∧
    (handle_model_unavailable devStUnavail "gpt-4o-mini").2.success =
      false ∧
    (orchExecute devStUnavail ctx0).1.paused = false :=
  C3_pause_only_via_handler devStUnavail "gpt-4o-mini" ctx0 rfl

/-! ## Claim C4 — the scope-confirmation gate of the definition phase -/

/-- C4: with the orchestrator unpaused in the definition phase and the
coordinator registered, a successful coordinator outcome whose data payload
lacks a truthy `"project_defined"` (scope-confirmed) flag leaves the state
machine in `definition`; the state machine reaches `development` iff the
outcome both succeeds and asserts the flag. -/
theorem C4_definition_scope_gate (st : OrchState) (ctx : Ctx) (step : Step)
    (hp : st.paused = false) (hw : st.workflow_state = "definition")
    (hc : dictGet st.agents "coord_001" = some step) :
    ((step ctx).success = true →
      PyVal.truthy
        ((dictGet (step ctx).data "project_defined").getD
          (PyVal.bool false)) = false →
      (orchExecute st ctx).1.workflow_state = "definition") ∧
    ((orchExecute st ctx).1.workflow_state = "development" ↔
      (step ctx).success = true ∧
      PyVal.truthy
        ((dictGet (step ctx).data "project_defined").getD
          (PyVal.bool false)) = true) := by
  have hmain : orchExecute st ctx = execDefPhase st ctx := by
    unfold orchExecute
    rw [hp, hw]
    simp
  rw [hmain]
  unfold execDefPhase
  rw [hc]
  dsimp only
  by_cases hs : (step ctx).success = true
  · by_cases hf :
        PyVal.truthy
          ((dictGet (step ctx).data "project_defined").getD
            (PyVal.bool false)) = true
    · rw [if_pos (by rw [hs, hf]; rfl)]
      constructor
      · intro _ hffalse
        rw [hf] at hffalse
        cases hffalse
      · simp [hs, hf]
    · rw [if_neg (by simp [Bool.eq_false_iff.mpr hf])]
      constructor
      · intro _ _
        exact hw
      · rw [hw]
        simp only [Bool.not_eq_true] at hf
        simp [hf]
  · rw [if_neg (by simp [Bool.eq_false_iff.mpr hs])]
    constructor
    · intro hs1
      exact absurd hs1 hs
    · rw [hw]
      simp only [Bool.not_eq_true] at hs
      simp [hs]

/-- A coordinator outcome that succeeds without asserting the
scope-confirmed flag (the shape `CoordinatorAgent.execute` actually
produces on an ordinary exchange). -/
def coordNoFlag : Step := fun _ =>
  mkResp true "chat reply" [("conversation_updated", PyVal.bool true)]

/-- A coordinator outcome that succeeds and asserts the flag. -/
def coordFlag : Step := fun _ =>
  mkResp true "scope done" [("project_defined", PyVal.bool true)]

/-- Definition-phase state with the flagless coordinator. -/
def defStNoFlag : OrchState :=
  { agents := [("coord_001", coordNoFlag)], workflow_state := "definition",
    paused := false, pause_reason := Option.none }

/-- Definition-phase state with the flag-asserting coordinator. -/
def defStFlag : OrchState :=
  { agents := [("coord_001", coordFlag)], workflow_state := "definition",
    paused := false, pause_reason := Option.none }

/-- Witness for `C4_definition_scope_gate`: a successful flagless outcome
stays in `definition`; a successful flagged outcome advances to
`development`. -/
theorem C4_definition_scope_gate_witness :
    (orchExecute defStNoFlag ctx0).1.workflow_state = "definition" ∧
    (orchExecute defStFlag ctx0).1.workflow_state = "development" :=
  ⟨(C4_definition_scope_gate defStNoFlag ctx0 coordNoFlag rfl rfl rfl).1
      rfl rfl,
   (C4_definition_scope_gate defStFlag ctx0 coordFlag rfl rfl rfl).2.mpr
      ⟨rfl, rfl⟩⟩

/-! ## Claim C5 — the fixed phase order and the terminal state -/

/-- C5: every `execute` call either keeps the workflow state or moves it to
the immediate successor in the fixed order `initializing → definition →
development → delivery → completed` (the source's names for Setup,
Definition, Development, Delivery, Completed) — no phase is ever skipped
or revisited; and in the terminal `completed` state an unpaused call
performs no transition and is rejected with a failure response. -/
theorem C5_phase_order (st : OrchState) (ctx : Ctx) :
    ((orchExecute st ctx).1.workflow_state = st.workflow_state ∨
      phaseSucc st.workflow_state =
        some (orchExecute st ctx).1.workflow_state) ∧
    (st.workflow_state = "completed" → st.paused = false →
      (orchExecute st ctx).1 = st ∧ (orchExecute st ctx).2.success = false) := by
  constructor
  · unfold orchExecute
    by_cases hp : st.paused
    · rw [if_pos hp]
      exact Or.inl (handle_pause_resume_fst_ws st ctx)
    · rw [if_neg hp]
      split_ifs with h1 h2 h3 h4
      · rcases execEnvSetup_fst_ws st ctx with h | h
        · exact Or.inl h
        · right
          rw [h1, h]
          rfl
      · rcases execDefPhase_fst_ws st ctx with h | h
        · exact Or.inl h
        · right
          rw [h2, h]
          rfl
      · rcases execDevPhase_fst_ws st ctx with h | h
        · exact Or.inl h
        · right
          rw [h3, h]
          rfl
      · rcases execDeliveryPhase_fst_ws st ctx with h | h
        · exact Or.inl h
        · right
          rw [h4, h]
          rfl
      · exact Or.inl rfl
  · intro hc hp
    unfold orchExecute
    rw [hp, hc]
    exact ⟨rfl, rfl⟩

/-- The terminal orchestrator state. -/
def completedSt : OrchState :=
  { agents := [], workflow_state := "completed", paused := false,
    pause_reason := Option.none }

/-- Witness for `C5_phase_order`: in the `completed` state an `execute`
call changes nothing and is rejected. -/
theorem C5_phase_order_witness :
    (orchExecute completedSt ctx0).1 = completedSt ∧
    (orchExecute completedSt ctx0).2.success = false :=
  (C5_phase_order completedSt ctx0).2 rfl rfl

/-! ## Claims C1 and C9 — the development-phase step loop -/

theorem devLoop_first_failure (agents : List (String × Step)) (ctx : Ctx)
    (pre : List (String × String × String)) (k : String × String × String)
    (post : List (String × String × String)) (kstep : Step)
    (hpre : ∀ p ∈ pre, ∃ step, dictGet agents p.1 = some step ∧
      (step ctx).success = true)
    (hk : dictGet agents k.1 = some kstep)
    (hkf : (kstep ctx).success = false) :
    devLoop agents ctx (pre ++ k :: post) =
      (pre.map (fun p => p.1) ++ [k.1],
        some (k.2.1, (kstep ctx).message)) := by
  induction pre with
  | nil =>
      obtain ⟨kid, kname, kdesc⟩ := k
      simp only [List.nil_append, List.map_nil]
      unfold devLoop
      rw [hk]
      dsimp only
      rw [if_neg (by simp [hkf])]
  | cons p rest ih =>
      obtain ⟨pid, pname, pdesc⟩ := p
      obtain ⟨pstep, hps, hpsucc⟩ :=
        hpre (pid, pname, pdesc) (List.mem_cons_self _ _)
      have ihh := ih (fun q hq => hpre q (List.mem_cons_of_mem _ hq))
      simp only [List.cons_append, List.map_cons]
      unfold devLoop
      rw [hps]
      dsimp only
      rw [if_pos hpsucc, ihh]

theorem devLoop_all_success (agents : List (String × Step)) (ctx : Ctx)
    (sl : List (String × String × String))
    (h : ∀ p ∈ sl, ∀ step, dictGet agents p.1 = some step →
      (step ctx).success = true) :
    (devLoop agents ctx sl).2 = Option.none := by
  induction sl with
  | nil => rfl
  | cons p rest ih =>
      obtain ⟨pid, pname, pdesc⟩ := p
      have ihh := ih (fun q hq => h q (List.mem_cons_of_mem _ hq))
      unfold devLoop
      cases hd : dictGet agents pid with
      | none => exact ihh
      | some step =>
          have hs := h (pid, pname, pdesc) (List.mem_cons_self _ _) step hd
          dsimp only
          rw [if_pos hs]
          exact ihh

theorem devLoop_trace_registered (agents : List (String × Step)) (ctx : Ctx)
    (sl : List (String × String × String)) :
    ∀ id ∈ (devLoop agents ctx sl).1, ∃ step,
      dictGet agents id = some step := by
  induction sl with
  | nil => intro id hid; cases hid
  | cons p rest ih =>
      obtain ⟨pid, pname, pdesc⟩ := p
      intro id hid
      unfold devLoop at hid
      cases hd : dictGet agents pid with
      | none =>
          rw [hd] at hid
          exact ih id hid
      | some step =>
          rw [hd] at hid
          dsimp only at hid
          by_cases hs : (step ctx).success = true
          · rw [if_pos hs] at hid
            rcases List.mem_cons.mp hid with rfl | hmem
            · exact ⟨step, hd⟩
            · exact ih id hmem
          · rw [if_neg hs] at hid
            rcases List.mem_cons.mp hid with rfl | hmem
            · exact ⟨step, hd⟩
            · cases hmem

/-- C1: if the registered development steps before position `k` all succeed
and the step at position `k` fails, the phase runner invokes exactly the
steps up to and including `k`, once each and in order (the invocation
trace is precisely their ids), invokes nothing after `k`, and returns a
phase outcome with `success = false` whose message identifies step `k` by
its agent name, keeping the state unchanged. -/
theorem C1_dev_short_circuit (st : OrchState) (ctx : Ctx)
    (pre post : List (String × String × String))
    (kid kname kdesc : String) (kstep : Step)
    (hsplit : dev_steps = pre ++ (kid, kname, kdesc) :: post)
    (hpre : ∀ p ∈ pre, ∃ step, dictGet st.agents p.1 = some step ∧
      (step ctx).success = true)
    (hk : dictGet st.agents kid = some kstep)
    (hkf : (kstep ctx).success = false) :
    devLoop st.agents ctx dev_steps =
      (pre.map (fun p => p.1) ++ [kid],
        some (kname, (kstep ctx).message)) ∧
    (execDevPhase st ctx).1 = st ∧
    (execDevPhase st ctx).2.success = false ∧
    (execDevPhase st ctx).2.message =
      "Development step failed: " ++ kname ++ " - " ++
        (kstep ctx).message := by
  have hdl :
      devLoop st.agents ctx dev_steps =
        (pre.map (fun p => p.1) ++ [kid],
          some (kname, (kstep ctx).message)) := by
    rw [hsplit]
    exact devLoop_first_failure st.agents ctx pre (kid, kname, kdesc) post
      kstep hpre hk hkf
  refine ⟨hdl, ?_, ?_, ?_⟩ <;> unfold execDevPhase <;> rw [hdl] <;>
    try rfl

/-- Concrete always-succeeding step. -/
def stepOk : Step := fun _ => mkResp true "ok" []

/-- Concrete failing step. -/
def stepFail : Step := fun _ => mkResp false "boom" []

/-- A development registry whose first step succeeds and second fails;
later steps are registered but must never run. -/
def devStFail : OrchState :=
  { agents := [("arch_001", stepOk), ("core_001", stepFail),
               ("backup_001", stepOk)],
    workflow_state := "development", paused := false,
    pause_reason := Option.none }

/-- Witness for `C1_dev_short_circuit`: with the architect succeeding and
the core-logic step failing, exactly those two run (in order) and the
failure message names the core-logic agent. -/
theorem C1_dev_short_circuit_witness :
    devLoop devStFail.agents ctx0 dev_steps =
      (["arch_001", "core_001"], some ("Core Logic Agent", "boom")) ∧
    (execDevPhase devStFail ctx0).2.success = false ∧
    (execDevPhase devStFail ctx0).2.message =
      "Development step failed: Core Logic Agent - boom" := by
  have h := C1_dev_short_circuit devStFail ctx0
    [("arch_001", "Architect Agent", "Designing system architecture")]
    [("backup_001", "Backup Agent", "Creating backups"),
     ("standards_001", "Standards Agent", "Enforcing coding standards"),
     ("test_001", "Testing Agent", "Running tests and validation"),
     ("doc_001", "Documentation Agent", "Updating documentation"),
     ("ethics_001", "Ethics Agent", "Security and ethics review"),
     ("valid_001", "Validator Agent", "Final validation")]
    "core_001" "Core Logic Agent" "Writing Python code" stepFail
    rfl
    (by
      intro p hp
      rcases List.mem_singleton.mp hp with rfl
      exact ⟨stepOk, rfl, rfl⟩)
    rfl rfl
  exact ⟨h.1.trans rfl, h.2.2.1, h.2.2.2.trans rfl⟩

/-- C9: a development-step id that is absent from the agent registry is
silently skipped — it never appears in the invocation trace, no failure is
recorded for it — and when every registered agent succeeds the phase still
completes with `success = true` and advances to delivery, the missing step
never having executed. -/
theorem C9_dev_skips_unregistered (st : OrchState) (ctx : Ctx) (id : String)
    (_hmem : id ∈ devIds) (hnone : dictGet st.agents id = Option.none)
    (hsucc : ∀ i step, dictGet st.agents i = some step →
      (step ctx).success = true) :
    id ∉ (devLoop st.agents ctx dev_steps).1 ∧
    (devLoop st.agents ctx dev_steps).2 = Option.none ∧
    (execDevPhase st ctx).2.success = true ∧
    (execDevPhase st ctx).1.workflow_state = "delivery" := by
  have htr : id ∉ (devLoop st.agents ctx dev_steps).1 := by
    intro hin
    obtain ⟨step, hstep⟩ :=
      devLoop_trace_registered st.agents ctx dev_steps id hin
    rw [hnone] at hstep
    cases hstep
  have hnofail : (devLoop st.agents ctx dev_steps).2 = Option.none :=
    devLoop_all_success st.agents ctx dev_steps
      (fun p _ step hstep => hsucc p.1 step hstep)
  refine ⟨htr, hnofail, ?_, ?_⟩ <;>
    · unfold execDevPhase
      rcases hv : devLoop st.agents ctx dev_steps with ⟨tr, out⟩
      rw [hv] at hnofail
      dsimp only at hnofail
      subst hnofail
      rfl

/-- A registry covering all development steps except the ethics agent,
every registered step succeeding. -/
def devStSkip : OrchState :=
  { agents := [("arch_001", stepOk), ("core_001", stepOk),
               ("backup_001", stepOk), ("standards_001", stepOk),
               ("test_001", stepOk), ("doc_001", stepOk),
               ("valid_001", stepOk)],
    workflow_state := "development", paused := false,
    pause_reason := Option.none }

theorem devStSkip_all_ok (i : String) (step : Step)
    (h : dictGet devStSkip.agents i = some step) :
    (step ctx0).success = true := by
  have hv : step = stepOk := by
    simp only [devStSkip, dictGet] at h
    repeat' split at h
    all_goals first | (cases h; rfl) | cases h
  rw [hv]
  rfl

/-- Witness for `C9_dev_skips_unregistered`: with the ethics agent missing
and every registered step succeeding, the phase succeeds, advances to
delivery, and the ethics step is never invoked. -/
theorem C9_dev_skips_unregistered_witness :
    "ethics_001" ∉ (devLoop devStSkip.agents ctx0 dev_steps).1 ∧
    (devLoop devStSkip.agents ctx0 dev_steps).2 = Option.none ∧
    (execDevPhase devStSkip ctx0).2.success = true ∧
    (execDevPhase devStSkip ctx0).1.workflow_state = "delivery" :=
  C9_dev_skips_unregistered devStSkip ctx0 "ethics_001" (by decide) rfl
    devStSkip_all_ok

/-! ## Claim C10 — deployment-choice dispatch -/

theorem deploy_failed_message_ne (m : String) :
    ("Deployment failed: " ++ m) ≠ "Invalid deployment option" := by
  intro h
  have h2 := congrArg String.data h
  rw [String.data_append] at h2
  have e1 : "Deployment failed: ".data =
      ['D', 'e', 'p', 'l', 'o', 'y', 'm', 'e', 'n', 't', ' ',
       'f', 'a', 'i', 'l', 'e', 'd', ':', ' '] := rfl
  have e2 : "Invalid deployment option".data =
      ['I', 'n', 'v', 'a', 'l', 'i', 'd', ' ', 'd', 'e', 'p', 'l',
       'o', 'y', 'm', 'e', 'n', 't', ' ', 'o', 'p', 't', 'i', 'o', 'n'] :=
    rfl
  rw [e1, e2] at h2
  simp at h2

theorem deployFinish_ne_invalid (res : DeployResult) :
    deployExecute.deployFinish res ≠
      { success := false, message := "Invalid deployment option" } := by
  unfold deployExecute.deployFinish
  split
  · intro h
    cases h
  · intro h
    exact deploy_failed_message_ne res.message (congrArg DeployResult.message h)

/-- C10: a context without a `deployment_choice` key makes `execute`
behave exactly as an explicit `"source_only"` choice (defaulting, not
failing: it succeeds whenever the source-only routine does), and the
`"Invalid deployment option"` failure arises precisely for a choice that
is present and outside the closed set
`{github, executable, source_only}`. -/
theorem C10_deploy_dispatch (r : DeployRoutines) (dc : Option String) :
    deployExecute r Option.none = deployExecute r (some "source_only") ∧
    (r.source_only.success = true →
      (deployExecute r Option.none).success = true) ∧
    (deployExecute r dc =
        { success := false, message := "Invalid deployment option" } ↔
      ∃ s, dc = some s ∧ s ≠ "github" ∧ s ≠ "executable" ∧
        s ≠ "source_only") := by
  refine ⟨rfl, ?_, ?_⟩
  · intro hs
    show (deployExecute.deployFinish r.source_only).success = true
    unfold deployExecute.deployFinish
    rw [if_pos hs]
  · cases dc with
    | none =>
        constructor
        · intro h
          exact absurd h (deployFinish_ne_invalid r.source_only)
        · rintro ⟨s, hs, -⟩
          cases hs
    | some s =>
        unfold deployExecute
        dsimp only [Option.getD]
        by_cases h1 : s = "github"
        · rw [if_pos h1]
          constructor
          · intro h
            exact absurd h (deployFinish_ne_invalid r.github)
          · rintro ⟨t, ht, htg, -⟩
            cases ht
            exact absurd h1 htg
        · rw [if_neg h1]
          by_cases h2 : s = "executable"
          · rw [if_pos h2]
            constructor
            · intro h
              exact absurd h (deployFinish_ne_invalid r.executable)
            · rintro ⟨t, ht, -, hte, -⟩
              cases ht
              exact absurd h2 hte
          · rw [if_neg h2]
            by_cases h3 : s = "source_only"
            · rw [if_pos h3]
              constructor
              · intro h
                exact absurd h (deployFinish_ne_invalid r.source_only)
              · rintro ⟨t, ht, -, -, hts⟩
                cases ht
                exact absurd h3 hts
            · rw [if_neg h3]
              exact ⟨fun _ => ⟨s, rfl, h1, h2, h3⟩, fun _ => rfl⟩

/-- Concrete deployment-routine results for the witness. -/
def drW : DeployRoutines :=
  { github := { success := true, message := "gh" },
    executable := { success := true, message := "exe" },
    source_only := { success := true, message := "src" } }

/-- Witness for `C10_deploy_dispatch`: an absent choice succeeds via the
source-only default; the unknown choice "ftp" yields the invalid-option
failure. -/
theorem C10_deploy_dispatch_witness :
    (deployExecute drW Option.none).success = true ∧
    deployExecute drW (some "ftp") =
      { success := false, message := "Invalid deployment option" } :=
  ⟨(C10_deploy_dispatch drW Option.none).2.1 rfl,
   (C10_deploy_dispatch drW (some "ftp")).2.2.mpr
     ⟨"ftp", rfl, by decide, by decide, by decide⟩⟩

/-! ## Claims C6 and C7 — outcome aggregation -/

theorem validate_passed_iff_issues (c : String) (vr : ValidationResults) :
    (validate_criterion c vr).passed =
      (validate_criterion c vr).issues.isEmpty := by
  unfold validate_criterion
  split_ifs
  · unfold validate_code_quality
    split_ifs <;> rfl
  · unfold validate_documentation
    cases vr.documentation_results <;> rfl
  · unfold validate_testing
    cases vr.test_results <;> rfl
  · unfold validate_security
    split_ifs <;> rfl
  · unfold validate_ethics
    split_ifs <;> rfl
  · rfl
  · rfl

theorem filter_isEmpty_eq_not_any {α : Type} (l : List α) (p : α → Bool) :
    (l.filter p).isEmpty = !l.any p := by
  induction l with
  | nil => rfl
  | cons a t ih =>
      by_cases h : p a <;> simp [List.filter_cons, h, ih]

/-- Whether some issue of a criterion's result is critical. -/
def hasCrit (vr : ValidationResults) (c : String) : Bool :=
  (validate_criterion c vr).issues.any isCritical

theorem aggStep_approved (vr : ValidationResults) (v : Validation)
    (c : String) :
    (aggStep vr v c).approved = (v.approved && !hasCrit vr c) := by
  unfold aggStep hasCrit
  have hpi := validate_passed_iff_issues c vr
  cases hi : (validate_criterion c vr).issues.isEmpty with
  | true =>
      rw [hi] at hpi
      rw [if_neg (by simp [hpi])]
      have : (validate_criterion c vr).issues = [] :=
        List.isEmpty_iff.mp hi
      simp [this]
  | false =>
      rw [hi] at hpi
      rw [if_pos (by simp [hpi, hi])]
      have hf := filter_isEmpty_eq_not_any
        ((validate_criterion c vr).issues) isCritical
      cases ha : (validate_criterion c vr).issues.any isCritical with
      | true =>
          rw [ha] at hf
          rw [if_pos (by simp [hf])]
          simp
      | false =>
          rw [ha] at hf
          rw [if_neg (by simp [hf])]
          simp

theorem foldl_aggStep_approved (vr : ValidationResults) (cs : List String)
    (v : Validation) :
    (cs.foldl (aggStep vr) v).approved =
      (v.approved && !cs.any (hasCrit vr)) := by
  induction cs generalizing v with
  | nil => simp
  | cons c t ih =>
      rw [List.foldl_cons, ih, aggStep_approved]
      simp [Bool.and_assoc]

theorem aggStep_recommendations_mono (vr : ValidationResults)
    (v : Validation) (c : String) :
    ∀ x ∈ v.recommendations, x ∈ (aggStep vr v c).recommendations := by
  intro x hx
  unfold aggStep
  dsimp only
  split_ifs <;> simp [hx]

theorem foldl_aggStep_recommendations_mono (vr : ValidationResults)
    (cs : List String) (v : Validation) :
    ∀ x ∈ v.recommendations,
      x ∈ (cs.foldl (aggStep vr) v).recommendations := by
  induction cs generalizing v with
  | nil => intro x hx; exact hx
  | cons c t ih =>
      intro x hx
      exact ih (aggStep vr v c) x (aggStep_recommendations_mono vr v c x hx)

theorem aggStep_recommendations_add (vr : ValidationResults)
    (v : Validation) (c : String)
    (hfail : (validate_criterion c vr).passed = false)
    (hne : (validate_criterion c vr).issues.isEmpty = false) :
    ∀ x ∈ (validate_criterion c vr).recommendations,
      x ∈ (aggStep vr v c).recommendations := by
  intro x hx
  unfold aggStep
  dsimp only
  rw [if_pos (by simp [hfail, hne])]
  split_ifs <;> simp [hx]

theorem foldl_aggStep_recommendations_of_mem (vr : ValidationResults)
    (cs : List String) (v : Validation) (c : String) (hc : c ∈ cs)
    (hfail : (validate_criterion c vr).passed = false)
    (hne : (validate_criterion c vr).issues.isEmpty = false) :
    ∀ x ∈ (validate_criterion c vr).recommendations,
      x ∈ (cs.foldl (aggStep vr) v).recommendations := by
  induction cs generalizing v with
  | nil => cases hc
  | cons c₁ t ih =>
      intro x hx
      rcases List.mem_cons.mp hc with rfl | hmem
      · exact foldl_aggStep_recommendations_mono vr t (aggStep vr v c) x
          (aggStep_recommendations_add vr v c hfail hne x hx)
      · exact ih (aggStep vr v c₁) hmem x hx

/-- C6: the aggregate `approved` flag is `false` exactly when at least one
criterion's recorded issue string contains one of the fixed critical
keywords; an issue text such as "3 minor style warnings" is never
critical while one containing "syntax error" always is; and the
recommendations of a failing criterion with only non-critical issues are
carried into the (non-blocking) aggregate recommendations. -/
theorem C6_approved_iff_critical (vr : ValidationResults) :
    ((perform_final_validation vr).approved = false ↔
      ∃ c ∈ validation_criteria, ∃ issue ∈ (validate_criterion c vr).issues,
        isCritical issue = true) ∧
    (∀ c ∈ validation_criteria,
      (validate_criterion c vr).passed = false →
      (validate_criterion c vr).issues.any isCritical = false →
      ∀ x ∈ (validate_criterion c vr).recommendations,
        x ∈ (perform_final_validation vr).recommendations) ∧
    isCritical "3 minor style warnings" = false ∧
    isCritical "syntax error in module X" = true := by
  refine ⟨?_, ?_, by decide, by decide⟩
  · unfold perform_final_validation
    rw [foldl_aggStep_approved]
    simp only [Bool.true_and, Bool.not_eq_eq_eq_not, Bool.not_false]
    rw [List.any_eq_true]
    constructor
    · rintro ⟨c, hc, hcrit⟩
      exact ⟨c, hc, List.any_eq_true.mp hcrit⟩
    · rintro ⟨c, hc, issue, hiss, hcrit⟩
      exact ⟨c, hc, List.any_eq_true.mpr ⟨issue, hiss, hcrit⟩⟩
  · intro c hc hfail hnocrit x hx
    have hne : (validate_criterion c vr).issues.isEmpty = false := by
      have hpi := validate_passed_iff_issues c vr
      rw [hfail] at hpi
      exact hpi.symm
    exact foldl_aggStep_recommendations_of_mem vr validation_criteria _ c hc
      hfail hne x hx

/-- Validation results with one standards tool reporting only minor style
warnings. -/
def vrMinor : ValidationResults :=
  { standards_results :=
      [("pylint", { status := some "issues_found",
                    message := some "3 minor style warnings" })],
    documentation_results := Option.none, test_results := Option.none,
    security_results := [], ethics_results := [] }

/-- Witness for `C6_approved_iff_critical`: a criterion failing with only a
minor-warning issue keeps the project approved and surfaces its
recommendation as non-blocking advice. -/
theorem C6_approved_iff_critical_witness :
    (perform_final_validation vrMinor).approved = true ∧
    "Run code quality tools and fix issues" ∈
      (perform_final_validation vrMinor).recommendations := by
  constructor
  · decide
  · exact (C6_approved_iff_critical vrMinor).2.1 "code_quality"
      (by decide) (by decide) (by decide)
      "Run code quality tools and fix issues" (by decide)

/-- C7 counterexample: on empty validation results the aggregate is
approved and every criterion passes, but the `functionality` criterion
carries NO advisory recommendation, contradicting the claim that every one
of the six criteria defaults to passed with an advisory recommendation. -/
theorem C7_counterexample :
    (perform_final_validation emptyVR).approved = true ∧
    ("functionality",
      ({ passed := true, issues := [], recommendations := [] } :
        CritResult)) ∈ (perform_final_validation emptyVR).criteria ∧
    ¬ (∀ p ∈ (perform_final_validation emptyVR).criteria,
        p.2.recommendations ≠ []) := by
  refine ⟨by decide, by decide, ?_⟩
  intro h
  exact h ("functionality",
    { passed := true, issues := [], recommendations := [] })
    (by decide) rfl

/-- C7 (amended): on empty validation results every one of the six criteria
defaults to `passed = true` and the aggregate is approved with no blocking
issues; the five evidence-based criteria each carry one advisory
recommendation, while `functionality` carries none. -/
theorem C7_empty_defaults :
    perform_final_validation emptyVR =
      { approved := true,
        criteria :=
          [("code_quality",
            { passed := true, issues := [],
              recommendations := ["Consider running code quality tools"] }),
           ("documentation",
            { passed := true, issues := [],
              recommendations := ["Consider adding more documentation"] }),
           ("testing",
            { passed := true, issues := [],
              recommendations :=
                ["Consider adding more comprehensive tests"] }),
           ("security",
            { passed := true, issues := [],
              recommendations := ["Consider adding security scanning"] }),
           ("ethics",
            { passed := true, issues := [],
              recommendations := ["Consider adding ethics review"] }),
           ("functionality",
            { passed := true, issues := [], recommendations := [] })],
        issues := [], recommendations := [] } := by
  decide
